import Mathlib

/-!
Verification of the PDFRose processing core against its specification.

The definitions below are a shallow embedding of the TypeScript sources:

* `src/lib/storage/recent-files.ts`  — recent-activity log (localStorage)
* `src/lib/storage/project-db.ts`    — resumable project store (IndexedDB)
* `src/lib/pdf/processors/text-to-pdf.ts` — two-tier font cache and processor
* `src/lib/pdf/processors/crop.ts`   — crop processor
* `src/lib/pdf/processors/sanitize.ts` — sanitize processor

Asynchronous, fallible host calls (IndexedDB requests, `fetch`, pdf-lib
operations) are made explicit: each embedded operation takes environment
flags describing which host call fails, and fallible code returns
`Except`/`Option`.  JavaScript wall-clock timestamps are modelled as `Nat`
(milliseconds); JavaScript `number` percentages are modelled as `ℚ`.
-/

/-! ## Recent-activity log (`src/lib/storage/recent-files.ts`) -/

/-- A `RecentFile` record, embedded from `recent-files.ts` (`processedAt` is an
ISO date string in the source; chronological strings are modelled as `Nat`). -/
structure RecentFile where
  id : String
  name : String
  size : Nat
  processedAt : Nat
  toolUsed : String
  toolName : Option String
  deriving DecidableEq

/-- The raw value found under the localStorage key, as `getRecentFiles` can
observe it: key absent, a string `JSON.parse` throws on, JSON that is not an
array, or a JSON array of records. -/
inductive RawStored where
  | absent : RawStored
  | notJson : RawStored
  | jsonNonArray : RawStored
  | jsonArray : List RecentFile → RawStored
  deriving DecidableEq

/-- Embedding of `getRecentFiles` (recent-files.ts:45-57): if
`isLocalStorageAvailable()` is false return `[]`; a missing key, a
`JSON.parse` exception (caught) and a non-array parse all yield `[]`;
otherwise the parsed array is returned. -/
def getRecentFiles (available : Bool) (raw : RawStored) : List RecentFile :=
  if available = false then []
  else
    match raw with
    | .absent => []
    | .notJson => []
    | .jsonNonArray => []
    | .jsonArray files => files

/-- Does `f` collide with key `(name, toolUsed)`?  Predicate of the filter in
`addRecentFile` (recent-files.ts:83-85). -/
def sameKey (name toolUsed : String) (f : RecentFile) : Prop :=
  f.name = name ∧ f.toolUsed = toolUsed

instance (name toolUsed : String) (f : RecentFile) :
    Decidable (sameKey name toolUsed f) := by
  unfold sameKey; infer_instance

/-- `MAX_RECENT_FILES` (recent-files.ts:18). -/
def MAX_RECENT_FILES : Nat := 10

/-- Embedding of `addRecentFile` (recent-files.ts:62-95).  The generated id
and the current time are environment inputs; `stored` is the list
`getRecentFiles` would return.  Returns the constructed entry together with
the new stored list (unchanged when localStorage is unavailable, in which
case the entry is still returned). -/
def addRecentFile (available : Bool) (stored : List RecentFile)
    (newId : String) (now : Nat) (name : String) (size : Nat)
    (toolUsed : String) (toolName : Option String) :
    RecentFile × List RecentFile :=
  let newFile : RecentFile :=
    { id := newId, name := name, size := size, processedAt := now,
      toolUsed := toolUsed, toolName := toolName }
  if available = false then (newFile, stored)
  else
    let filtered := stored.filter (fun f => ¬ sameKey name toolUsed f)
    (newFile, (newFile :: filtered).take MAX_RECENT_FILES)

/-- Inserting a whole `RecentFile` record (its own id/timestamp reused as the
generated ones), for stating sequences of `addRecentFile` calls. -/
def insertRecent (stored : List RecentFile) (e : RecentFile) :
    List RecentFile :=
  (addRecentFile true stored e.id e.processedAt e.name e.size e.toolUsed
    e.toolName).2

/-- A sequence of `addRecentFile` calls, oldest first. -/
def insertAll (es : List RecentFile) (stored : List RecentFile) :
    List RecentFile :=
  es.foldl insertRecent stored

/-! ## Resumable project store (`src/lib/storage/project-db.ts`) -/

/-- The `status` enumeration of `ProjectState` (project-db.ts:15). -/
inductive ProjectStatus where
  | in_progress : ProjectStatus
  | paused : ProjectStatus
  | completed : ProjectStatus
  deriving DecidableEq

/-- `ProjectFileMetadata` (project-db.ts:21-26). -/
structure ProjectFileMetadata where
  name : String
  size : Nat
  type : String
  lastModified : Nat
  deriving DecidableEq

/-- `ProjectState` (project-db.ts:8-19); ISO timestamps modelled as `Nat`
milliseconds, `options` as a string-keyed association list. -/
structure ProjectState where
  id : String
  name : String
  toolId : String
  toolName : Option String
  createdAt : Nat
  updatedAt : Nat
  status : ProjectStatus
  options : List (String × String)
  fileMetadata : List ProjectFileMetadata
  progress : ℚ
  deriving DecidableEq

/-- A partial update as accepted by `updateProject`
(`Partial<Omit<ProjectState, 'id' | 'createdAt'>>`): every remaining field
may be present or absent.  A present `updatedAt` is accepted by the type but
overwritten by the implementation (see `mergeProject`). -/
structure ProjectUpdate where
  name : Option String := none
  toolId : Option String := none
  toolName : Option (Option String) := none
  updatedAt : Option Nat := none
  status : Option ProjectStatus := none
  options : Option (List (String × String)) := none
  fileMetadata : Option (List ProjectFileMetadata) := none
  progress : Option ℚ := none
  deriving DecidableEq

/-- The object spread `{ ...existing, ...updates, updatedAt: now }`
(project-db.ts:123-127).  Present update fields overwrite the existing
record; the trailing `updatedAt: now` wins over any `updatedAt` carried by
`updates`; `id` and `createdAt` are outside the update type and are copied. -/
def mergeProject (existing : ProjectState) (u : ProjectUpdate) (now : Nat) :
    ProjectState :=
  { id := existing.id
    name := u.name.getD existing.name
    toolId := u.toolId.getD existing.toolId
    toolName := u.toolName.getD existing.toolName
    createdAt := existing.createdAt
    updatedAt := now
    status := u.status.getD existing.status
    options := u.options.getD existing.options
    fileMetadata := u.fileMetadata.getD existing.fileMetadata
    progress := u.progress.getD existing.progress }

/-- The IndexedDB object store of projects, keyed by `id` (keyPath `id`). -/
def ProjectStore : Type := List ProjectState

/-- `store.get(id)`: first record with the given id. -/
def storeGet (store : ProjectStore) (id : String) : Option ProjectState :=
  store.find? (fun p => p.id = id)

/-- `store.put(updated)`: replace the record with the same key. -/
def storePut (store : ProjectStore) (updated : ProjectState) : ProjectStore :=
  store.map (fun p => if p.id = updated.id then updated else p)

/-- Environment of one `updateProject` call: whether IndexedDB is available
(`openDatabase` rejects otherwise, project-db.ts:37-40) and whether the
`get`/`put` requests fail (their `onerror` handlers reject,
project-db.ts:133-140). -/
structure ProjectDBEnv where
  dbAvailable : Bool
  getFails : Bool
  putFails : Bool
  deriving DecidableEq

/-- Embedding of `updateProject` (project-db.ts:108-146).  `Except.error`
models a rejected promise; `Except.ok (none, store)` is the soft failure
`resolve(null)` for an unknown id; otherwise the merged record is written
back with `updatedAt` refreshed to `now`. -/
def updateProject (env : ProjectDBEnv) (store : ProjectStore) (id : String)
    (u : ProjectUpdate) (now : Nat) :
    Except String (Option ProjectState × ProjectStore) :=
  if env.dbAvailable = false then .error "IndexedDB not available"
  else if env.getFails then .error "Failed to get project"
  else
    match storeGet store id with
    | none => .ok (none, store)
    | some existing =>
      let updated := mergeProject existing u now
      if env.putFails then .error "Failed to update project"
      else .ok (some updated, storePut store updated)

/-! ## Two-tier font cache (`src/lib/pdf/processors/text-to-pdf.ts`, 127-210)

`saveFontToDB` and `getCachedFontFromDB` both have the shape

    try { const db = await openFontDB(); return new Promise(...); } catch { ... }

The `try` only guards the awaited `openFontDB()`: the promise built from the
IndexedDB request is *returned*, not awaited, so a rejection coming from the
request's `onerror` handler bypasses the `catch` and rejects the function's
own promise.  The embedding keeps the two failure sources separate:
`openFails` (caught) and `getFails`/`putFails` (escaping rejections). -/

/-- Font bytes (an `ArrayBuffer` in the source). -/
abbrev Buffer := List Nat

/-- Overwrite-on-put association list, used for both the in-memory `Map` and
the IndexedDB `fonts` object store. -/
def assocPut (k : String) (v : Buffer) (l : List (String × Buffer)) :
    List (String × Buffer) :=
  (k, v) :: l.filter (fun p => p.1 ≠ k)

/-- Lookup in an association list (`Map.get` / object-store `get`). -/
def assocGet (k : String) (l : List (String × Buffer)) : Option Buffer :=
  (l.find? (fun p => p.1 = k)).map (fun p => p.2)

/-- The two tiers: the module-level `fontCache` map and the `PDFRose-fonts`
IndexedDB store. -/
structure FontCacheState where
  mem : List (String × Buffer)
  db : List (String × Buffer)
  deriving DecidableEq

/-- Host behaviour for one `loadFont` call: whether `openFontDB` rejects,
whether the store `get`/`put` requests fire `onerror`, and what `fetch url`
yields (`none` = network failure or a non-ok response). -/
structure FontDBEnv where
  openFails : Bool
  getFails : Bool
  putFails : Bool
  fetch : String → Option Buffer

/-- Embedding of `getCachedFontFromDB` (text-to-pdf.ts:150-163).  An
`openFontDB` rejection is caught and becomes `null`; a failing `get` request
rejects the *returned* promise, which the surrounding `catch` never sees, so
it surfaces as `Except.error`. -/
def getCachedFontFromDB (env : FontDBEnv) (s : FontCacheState)
    (fontId : String) : Except String (Option Buffer) :=
  if env.openFails then .ok none
  else if env.getFails then .error "font get request failed"
  else .ok (assocGet fontId s.db)

/-- Embedding of `saveFontToDB` (text-to-pdf.ts:165-178).  An `openFontDB`
rejection is caught (`-- Ignore IndexedDB errors`) and the store is left
unchanged; a failing `put` request rejects the returned promise, escaping
the `catch`.  Returns the new durable tier on success. -/
def saveFontToDB (env : FontDBEnv) (s : FontCacheState) (fontId : String)
    (fontBuffer : Buffer) : Except String (List (String × Buffer)) :=
  if env.openFails then .ok s.db
  else if env.putFails then .error "font put request failed"
  else .ok (assocPut fontId fontBuffer s.db)

/-- Embedding of `loadFont` (text-to-pdf.ts:183-210): memory tier first, then
the durable tier (repopulating memory on a hit), then `fetch`; the fetched
bytes are put in memory and then `await saveFontToDB(...)` — so a rejection
from `saveFontToDB` propagates out of `loadFont` even though the memory tier
was already populated.  Returns the outcome together with the state after
the call. -/
def loadFont (env : FontDBEnv) (s : FontCacheState) (fontId : String)
    (url : String) : Except String Buffer × FontCacheState :=
  match assocGet fontId s.mem with
  | some b => (.ok b, s)
  | none =>
    match getCachedFontFromDB env s fontId with
    | .error e => (.error e, s)
    | .ok (some cachedFont) =>
      (.ok cachedFont, { s with mem := assocPut fontId cachedFont s.mem })
    | .ok none =>
      match env.fetch url with
      | none => (.error ("Failed to load font: " ++ fontId), s)
      | some buffer =>
        let s1 : FontCacheState :=
          { s with mem := assocPut fontId buffer s.mem }
        match saveFontToDB env s1 fontId buffer with
        | .error e => (.error e, s1)
        | .ok db1 => (.ok buffer, { s1 with db := db1 })

/-! ## Processor contract (`@/types/pdf` and `BasePDFProcessor`)

`src/lib/pdf/processor.ts` and `src/types/pdf.ts` are not part of the
sources; their helpers are modelled from the spec where the concrete
processors use them. -/

/-- The error taxonomy (`PDFErrorCode` in `@/types/pdf`), as enumerated in
spec §7 and used by the processors under `src/lib/pdf/processors/`. -/
inductive PDFErrorCode where
  | INVALID_OPTIONS : PDFErrorCode
  | PDF_ENCRYPTED : PDFErrorCode
  | PDF_MALFORMED : PDFErrorCode
  | PROCESSING_CANCELLED : PDFErrorCode
  | PROCESSING_FAILED : PDFErrorCode
  deriving DecidableEq

/-- Modelled from the spec: `BasePDFProcessor.checkCancelled` of the missing
`src/lib/pdf/processor.ts`.  Spec §4.4/§5: cancellation is cooperative and
polled at well-defined checkpoints.  A processor run is parameterised by the
value the flag has at its `i`-th checkpoint (checkpoints numbered in the
order the processor reaches them). -/
def checkCancelled (flag : Nat → Bool) (checkpoint : Nat) : Bool :=
  flag checkpoint

/-- Modelled from the spec: `BasePDFProcessor.updateProgress` of the missing
`src/lib/pdf/processor.ts` invokes the observer synchronously with the given
percentage (spec §4.4 `Running → Running`).  A run is therefore summarised
by the list of percentages passed to the observer, in order; the embedded
processors below return that list alongside their outcome. -/
abbrev ProgressTrace : Type := List ℚ

/-! ## Crop processor (`src/lib/pdf/processors/crop.ts`) -/

/-- `CropData` (crop.ts:11-16): fractional crop rectangle. -/
structure CropData where
  x : ℚ
  y : ℚ
  width : ℚ
  height : ℚ
  deriving DecidableEq

/-- The crop mode (`'destructive' | 'metadata'`, crop.ts:20). -/
inductive CropMode where
  | destructive : CropMode
  | metadata : CropMode
  deriving DecidableEq

/-- `CropOptions` (crop.ts:18-21).  `cropData` is a `Record<number, CropData>`
keyed by 1-based page number; JavaScript object keys are numbers, so they
are modelled as `Int` and listed in the order `Object.keys` yields them. -/
structure CropOptions where
  cropData : List (Int × CropData)
  mode : Option CropMode
  deriving DecidableEq

/-- One page of the pdf-lib document as the crop processor observes it:
its media size and the crop box last set on it. -/
structure CropPage where
  width : ℚ
  height : ℚ
  cropBox : Option (ℚ × ℚ × ℚ × ℚ)
  deriving DecidableEq

/-- The coordinate conversion and `page.setCropBox` call (crop.ts:103-108):
top-left-origin percentages to bottom-left-origin points. -/
def setCropBoxCalc (crop : CropData) (page : CropPage) : CropPage :=
  let cropW := crop.width * page.width
  let cropH := crop.height * page.height
  let cropX := crop.x * page.width
  let cropY := page.height - crop.y * page.height - cropH
  { page with cropBox := some (cropX, cropY, cropW, cropH) }

/-- Replace the page at `i`, leaving the document unchanged when `i` is out
of range (the loop never calls it out of range). -/
def modifyPage (f : CropPage → CropPage) : Nat → List CropPage → List CropPage
  | _, [] => []
  | 0, p :: ps => f p :: ps
  | n + 1, p :: ps => p :: modifyPage f n ps

/-- Host behaviour for one crop run: the cancellation flag at each
checkpoint, and whether `loadPdfLib`/`file.arrayBuffer`,
`PDFDocument.load`, or `pdf.save` throw. -/
structure CropEnv where
  cancelled : Nat → Bool
  libLoadFails : Bool
  docLoadFails : Bool
  saveFails : Bool

/-- The page loop of `performMetadataCrop` (crop.ts:77-111): at each entry a
cancellation checkpoint (`throw new Error('Processing cancelled')` when
observed), out-of-range page numbers skipped by `continue` (skipping the
progress update too), in-range pages get their crop box set and a progress
update `30 + 60*(i+1)/n`.  Returns the document (or the thrown message)
and the emitted progress values. -/
def cropLoop (cancelled : Nat → Bool) (n : Nat) (i : Nat)
    (pages : List CropPage) (rest : List (Int × CropData)) :
    Except String (List CropPage) × ProgressTrace :=
  match rest with
  | [] => (.ok pages, [])
  | (pageNum, crop) :: rest' =>
    if checkCancelled cancelled i then (.error "Processing cancelled", [])
    else
      let pageIndex : Int := pageNum - 1
      if pageIndex < 0 ∨ (pages.length : Int) ≤ pageIndex then
        cropLoop cancelled n (i + 1) pages rest'
      else
        let pages' := modifyPage (setCropBoxCalc crop) pageIndex.toNat pages
        let (res, tr) := cropLoop cancelled n (i + 1) pages' rest'
        (res, (30 + 60 * (i + 1 : ℚ) / (n : ℚ)) :: tr)

/-- Embedding of `performMetadataCrop` (crop.ts:70-114): load the document
(`ignoreEncryption: true`), run the page loop, save.  Throws (`Except.error`)
on a load failure, an observed cancellation, or a save failure. -/
def performMetadataCrop (env : CropEnv) (pages : List CropPage)
    (cropData : List (Int × CropData)) :
    Except String (List CropPage) × ProgressTrace :=
  if env.docLoadFails then (.error "Failed to load PDF document", [])
  else
    let (res, tr) := cropLoop env.cancelled cropData.length 0 pages cropData
    match res with
    | .error e => (.error e, tr)
    | .ok doc =>
      if env.saveFails then (.error "Failed to save PDF", tr)
      else (.ok doc, tr)

/-- Embedding of `performDestructiveCrop` (crop.ts:116-139): the source
explicitly falls back to the metadata crop
(`return this.performMetadataCrop(pdfLib, arrayBuffer, cropData)`). -/
def performDestructiveCrop (env : CropEnv) (pages : List CropPage)
    (cropData : List (Int × CropData)) :
    Except String (List CropPage) × ProgressTrace :=
  performMetadataCrop env pages cropData

/-- JavaScript `String.prototype.replace` with a plain-string pattern:
replace the first occurrence only (crop.ts:61 `file.name.replace('.pdf',
suffix)`). -/
def replaceFirst (pat repl : List Char) : List Char → List Char
  | [] => []
  | c :: cs =>
    if pat.isPrefixOf (c :: cs) then repl ++ (c :: cs).drop pat.length
    else c :: replaceFirst pat repl cs

/-- `file.name.replace('.pdf', suffix)` on `String`s. -/
def replacePdfSuffix (name suffix : String) : String :=
  (replaceFirst ".pdf".toList suffix.toList name.toList).asString

/-- The outcome of a crop run.  `success` carries the saved document (the
output bytes), the output filename and the `pagesCropped` metadata;
`failure` carries the error code, message and optional details, as built by
the spec-modelled `createSuccessOutput`/`createErrorOutput` helpers. -/
inductive CropOutput where
  | success : List CropPage → String → Nat → CropOutput
  | failure : PDFErrorCode → String → Option String → CropOutput
  deriving DecidableEq

/-- The output bytes of a crop run, if any. -/
def CropOutput.blob : CropOutput → Option (List CropPage)
  | .success doc _ _ => some doc
  | .failure _ _ _ => none

/-- A crop output with its filename replaced, for stating that two runs
differ only in the filename. -/
def CropOutput.withFilename (o : CropOutput) (s : String) : CropOutput :=
  match o with
  | .success doc _ m => .success doc s m
  | .failure c msg d => .failure c msg d

/-- Embedding of `CropProcessor.process` (crop.ts:24-68): input-count and
crop-data validation, progress updates 10 and 20, mode dispatch, progress
100 and the success output on the happy path; every exception from the crop
phase is caught and mapped to `PROCESSING_FAILED` with message
`'Failed to crop PDF.'` — including the cancellation throw. -/
def cropProcess (env : CropEnv) (fileCount : Nat) (fileName : String)
    (pages : List CropPage) (opts : CropOptions) :
    CropOutput × ProgressTrace :=
  if fileCount ≠ 1 then
    (.failure .INVALID_OPTIONS "Exactly 1 PDF file is required." none, [])
  else if opts.cropData.isEmpty then
    (.failure .INVALID_OPTIONS "Crop data is required." none, [])
  else if env.libLoadFails then
    (.failure .PROCESSING_FAILED "Failed to crop PDF."
      (some "Failed to load PDF library"), [10])
  else
    let isDestructive := opts.mode = some .destructive
    let (res, tr) :=
      if isDestructive then performDestructiveCrop env pages opts.cropData
      else performMetadataCrop env pages opts.cropData
    match res with
    | .error e =>
      (.failure .PROCESSING_FAILED "Failed to crop PDF." (some e),
        10 :: 20 :: tr)
    | .ok doc =>
      let suffix := if isDestructive then "_cropped_flattened.pdf"
        else "_cropped.pdf"
      (.success doc (replacePdfSuffix fileName suffix)
          opts.cropData.length,
        10 :: 20 :: (tr ++ [100]))

/-! ## Sanitize processor (`src/lib/pdf/processors/sanitize.ts`) -/

/-- `SanitizePDFOptions` (sanitize.ts:27-40). -/
structure SanitizeOptions where
  removeJavaScript : Bool
  removeAttachments : Bool
  removeLinks : Bool
  flattenForms : Bool
  removeMetadata : Bool
  removeAnnots : Bool
  deriving DecidableEq

/-- `DEFAULT_SANITIZE_OPTIONS` (sanitize.ts:45-52). -/
def DEFAULT_SANITIZE_OPTIONS : SanitizeOptions :=
  { removeJavaScript := true, removeAttachments := true, removeLinks := true,
    flattenForms := true, removeMetadata := true, removeAnnots := false }

/-- The caller-supplied `Partial<SanitizePDFOptions>`. -/
structure SanitizeOptionsIn where
  removeJavaScript : Option Bool := none
  removeAttachments : Option Bool := none
  removeLinks : Option Bool := none
  flattenForms : Option Bool := none
  removeMetadata : Option Bool := none
  removeAnnots : Option Bool := none
  deriving DecidableEq

/-- The options spread `{ ...DEFAULT_SANITIZE_OPTIONS, ...options }`
(sanitize.ts:70-73). -/
def mergeSanitizeOptions (p : SanitizeOptionsIn) : SanitizeOptions :=
  { removeJavaScript :=
      p.removeJavaScript.getD DEFAULT_SANITIZE_OPTIONS.removeJavaScript
    removeAttachments :=
      p.removeAttachments.getD DEFAULT_SANITIZE_OPTIONS.removeAttachments
    removeLinks := p.removeLinks.getD DEFAULT_SANITIZE_OPTIONS.removeLinks
    flattenForms := p.flattenForms.getD DEFAULT_SANITIZE_OPTIONS.flattenForms
    removeMetadata :=
      p.removeMetadata.getD DEFAULT_SANITIZE_OPTIONS.removeMetadata
    removeAnnots := p.removeAnnots.getD DEFAULT_SANITIZE_OPTIONS.removeAnnots }

/-- One page-level annot as the links step observes it: its `Subtype` name
(without the leading slash) and whether `context.lookup(ref)` throws for it
(in which case the ref is kept, sanitize.ts:325-327). -/
structure SanAnnot where
  subtype : Option String
  lookupFails : Bool
  deriving DecidableEq

/-- One page of the document as the sanitize steps observe it. -/
structure SanPage where
  hasAA : Bool := false
  annots : Option (List SanAnnot) := none
  deriving DecidableEq

/-- The pdf-lib document as the sanitize steps observe and mutate it.  The
`...Fails` flags say which best-effort library call throws (landing in the
step's own `catch`). -/
structure SanDoc where
  pages : List SanPage := []
  formFieldCount : Nat := 0
  flattenFails : Bool := false
  hasAcroForm : Bool := false
  acroRemoveFails : Bool := false
  infoKeys : List String := []
  title : String := ""
  author : String := ""
  subject : String := ""
  keywords : List String := []
  creator : String := ""
  producer : String := ""
  metadataFails : Bool := false
  hasXmp : Bool := false
  xmpRemoveFails : Bool := false
  hasNames : Bool := false
  namesLookupFails : Bool := false
  namesHasJavaScript : Bool := false
  hasOpenAction : Bool := false
  hasAA : Bool := false
  jsStepFails : Bool := false
  namesHasEmbeddedFiles : Bool := false
  hasCollection : Bool := false
  embedStepFails : Bool := false
  linksStepFails : Bool := false
  deriving DecidableEq

/-- The form-flattening step (sanitize.ts:150-170): flatten when there are
fields; if `flatten()` throws, fall back to deleting the `AcroForm` entry.
Returns the document and the `removedItems` entries it pushed. -/
def sanitizeFlattenStep (doc : SanDoc) : SanDoc × List String :=
  if doc.formFieldCount > 0 then
    if doc.flattenFails then
      -- catch: try to remove AcroForm instead
      if doc.acroRemoveFails then (doc, [])
      else if doc.hasAcroForm then
        ({ doc with hasAcroForm := false }, ["form fields"])
      else (doc, [])
    else
      ({ doc with formFieldCount := 0 }, ["form fields (flattened)"])
  else (doc, [])

/-- The metadata-removal step (sanitize.ts:175-205): clear the info
dictionary, blank the document-information fields, set the producer, delete
the XMP `Metadata` stream (its own best-effort sub-step). -/
def sanitizeMetadataStep (doc : SanDoc) : SanDoc × List String :=
  if doc.metadataFails then (doc, [])
  else
    let doc' : SanDoc :=
      { doc with
        infoKeys := []
        title := ""
        author := ""
        subject := ""
        keywords := []
        creator := ""
        producer := "PDFRose" }
    let doc'' :=
      if doc'.xmpRemoveFails then doc'
      else { doc' with hasXmp := false }
    (doc'', ["metadata"])

/-- The annot-removal step (sanitize.ts:210-220): delete every page's
`Annots` entry. -/
def sanitizeAnnotsStep (doc : SanDoc) : SanDoc × List String :=
  ({ doc with pages := doc.pages.map (fun p => { p with annots := none }) },
    ["annotations"])

/-- The JavaScript-removal step (sanitize.ts:225-269): delete
`Names/JavaScript` (when the `Names` lookup succeeds), `OpenAction`, the
catalog `AA` entry and every page's `AA` entry. -/
def sanitizeJavaScriptStep (doc : SanDoc) : SanDoc × List String :=
  if doc.jsStepFails then (doc, [])
  else
    -- `Names/JavaScript` survives only when the `Names` entry is absent or
    -- its lookup throws (inner catch); otherwise it is deleted.
    let doc' : SanDoc :=
      { doc with
        namesHasJavaScript :=
          doc.namesHasJavaScript && (!doc.hasNames || doc.namesLookupFails)
        hasOpenAction := false
        hasAA := false
        pages := doc.pages.map (fun p => { p with hasAA := false }) }
    (doc', ["JavaScript"])

/-- The embedded-files step (sanitize.ts:274-300): delete
`Names/EmbeddedFiles` (when the `Names` lookup succeeds) and `Collection`. -/
def sanitizeAttachmentsStep (doc : SanDoc) : SanDoc × List String :=
  if doc.embedStepFails then (doc, [])
  else
    -- `Names/EmbeddedFiles` survives only when the `Names` entry is absent
    -- or its lookup throws (inner catch); otherwise it is deleted.
    let doc' : SanDoc :=
      { doc with
        namesHasEmbeddedFiles :=
          doc.namesHasEmbeddedFiles && (!doc.hasNames || doc.namesLookupFails)
        hasCollection := false }
    (doc', ["embedded files"])

/-- The link-removal pass over one page (sanitize.ts:307-337): keep the
annots whose subtype is not `Link` (and those whose lookup throws); rewrite
or delete the page's `Annots` entry when anything was dropped. -/
def sanitizeLinksPage (p : SanPage) : SanPage :=
  match p.annots with
  | none => p
  | some refs =>
    let kept := refs.filter (fun a => a.lookupFails ∨ a.subtype ≠ some "Link")
    if kept.length ≠ refs.length then
      if kept.length > 0 then { p with annots := some kept }
      else { p with annots := none }
    else p

/-- The link-removal step (sanitize.ts:303-346). -/
def sanitizeLinksStep (doc : SanDoc) : SanDoc × List String :=
  if doc.linksStepFails then (doc, [])
  else ({ doc with pages := doc.pages.map sanitizeLinksPage }, ["links"])

/-- What `PDFDocument.load` does on this file: succeed with a document,
throw an error whose message mentions encryption, or throw something else
(rethrown to the outer catch). -/
inductive SanLoadResult where
  | ok : SanDoc → SanLoadResult
  | encrypted : SanLoadResult
  | failed : String → SanLoadResult

/-- Host behaviour for one sanitize run: the cancellation flag at the three
checkpoints (sanitize.ts:93, 125, 348), library/file-read/save failures, and
the byte sizes before and after saving. -/
structure SanEnv where
  cancelled : Nat → Bool
  libLoadFails : Bool
  readFails : Bool
  loadResult : SanLoadResult
  saveFails : Bool
  fileSize : Nat
  savedSize : Nat

/-- The metadata map of a successful sanitize output (sanitize.ts:369-375). -/
structure SanMeta where
  pageCount : Nat
  originalSize : Nat
  newSize : Nat
  removedItems : List String
  sanitized : Bool
  deriving DecidableEq

/-- The outcome of a sanitize run, as built by the spec-modelled
`createSuccessOutput`/`createErrorOutput` helpers. -/
inductive SanOutput where
  | success : SanDoc → String → SanMeta → SanOutput
  | failure : PDFErrorCode → String → Option String → SanOutput
  deriving DecidableEq

/-- `generateSanitizedFilename` (sanitize.ts:397-401): strip from the last
dot (if any) and append `_sanitized.pdf`. -/
def generateSanitizedFilename (originalName : String) : String :=
  let rev := originalName.toList.reverse
  let spanned := rev.span (fun c => c ≠ '.')
  match spanned.2 with
  | [] => originalName ++ "_sanitized.pdf"
  | _ :: baseRev => (baseRev.reverse.asString) ++ "_sanitized.pdf"

/-- Embedding of `SanitizePDFProcessor.process` (sanitize.ts:62-384):
validation, progress updates 5,10,20,30,40,50,60,70,80,90,100, the three
cancellation checkpoints, the encrypted/zero-page failures, the six
best-effort sub-steps accumulating `removedItems` in source order, and the
catch-all mapping other exceptions to `PROCESSING_FAILED`. -/
def sanitizeProcess (env : SanEnv) (fileCount : Nat) (fileName : String)
    (optsIn : SanitizeOptionsIn) : SanOutput × ProgressTrace :=
  let opts := mergeSanitizeOptions optsIn
  if fileCount ≠ 1 then
    (.failure .INVALID_OPTIONS "Please provide exactly one PDF file to sanitize."
      (some ("Received " ++ toString fileCount ++ " file(s).")), [])
  else if env.libLoadFails then
    (.failure .PROCESSING_FAILED "Failed to sanitize PDF file."
      (some "Failed to load PDF library"), [5])
  else if checkCancelled env.cancelled 0 then
    (.failure .PROCESSING_CANCELLED "Processing was cancelled." none, [5])
  else if env.readFails then
    (.failure .PROCESSING_FAILED "Failed to sanitize PDF file."
      (some "Failed to read file"), [5, 10])
  else
    match env.loadResult with
    | .encrypted =>
      (.failure .PDF_ENCRYPTED "The PDF file is encrypted."
        (some "Please decrypt the file before sanitizing."), [5, 10, 20])
    | .failed msg =>
      (.failure .PROCESSING_FAILED "Failed to sanitize PDF file." (some msg),
        [5, 10, 20])
    | .ok doc0 =>
      if checkCancelled env.cancelled 1 then
        (.failure .PROCESSING_CANCELLED "Processing was cancelled." none,
          [5, 10, 20])
      else if doc0.pages.length = 0 then
        (.failure .PDF_MALFORMED "The PDF file contains no pages."
          (some "Cannot sanitize an empty PDF."), [5, 10, 20, 30])
      else
        let pageCount := doc0.pages.length
        let s1 := if opts.flattenForms then sanitizeFlattenStep doc0
          else (doc0, [])
        let s2 := if opts.removeMetadata then sanitizeMetadataStep s1.1
          else (s1.1, [])
        let s3 := if opts.removeAnnots then sanitizeAnnotsStep s2.1
          else (s2.1, [])
        let s4 := if opts.removeJavaScript then sanitizeJavaScriptStep s3.1
          else (s3.1, [])
        let s5 := if opts.removeAttachments then sanitizeAttachmentsStep s4.1
          else (s4.1, [])
        let s6 := if opts.removeLinks then sanitizeLinksStep s5.1
          else (s5.1, [])
        let removedItems :=
          s1.2 ++ s2.2 ++ s3.2 ++ s4.2 ++ s5.2 ++ s6.2
        if checkCancelled env.cancelled 2 then
          (.failure .PROCESSING_CANCELLED "Processing was cancelled." none,
            [5, 10, 20, 30, 40, 50, 60, 70, 80])
        else if env.saveFails then
          (.failure .PROCESSING_FAILED "Failed to sanitize PDF file."
            (some "Failed to save PDF"),
            [5, 10, 20, 30, 40, 50, 60, 70, 80, 90])
        else
          (.success s6.1 (generateSanitizedFilename fileName)
            { pageCount := pageCount, originalSize := env.fileSize,
              newSize := env.savedSize, removedItems := removedItems,
              sanitized := true },
            [5, 10, 20, 30, 40, 50, 60, 70, 80, 90, 100])

/-! ## Text-to-PDF processor (`src/lib/pdf/processors/text-to-pdf.ts`) -/

/-- A page-size preset (text-to-pdf.ts:22-29). -/
structure PageSizeDef where
  width : ℚ
  height : ℚ
  deriving DecidableEq

/-- `TEXT_PAGE_SIZES` keys (text-to-pdf.ts:31). -/
inductive TextPageSizeType where
  | A4 | LETTER | LEGAL | A5 | A3 | CUSTOM
  deriving DecidableEq

/-- `TEXT_PAGE_SIZES` (text-to-pdf.ts:22-29). -/
def TEXT_PAGE_SIZES : TextPageSizeType → PageSizeDef
  | .A4 => { width := 595.28, height := 841.89 }
  | .LETTER => { width := 612, height := 792 }
  | .LEGAL => { width := 612, height := 1008 }
  | .A5 => { width := 419.53, height := 595.28 }
  | .A3 => { width := 841.89, height := 1190.55 }
  | .CUSTOM => { width := 595.28, height := 841.89 }

/-- `PageOrientation` (text-to-pdf.ts:36). -/
inductive PageOrientation where
  | portrait | landscape
  deriving DecidableEq

/-- `TextColor` (text-to-pdf.ts:41-45). -/
structure TextColor where
  r : ℚ
  g : ℚ
  b : ℚ
  deriving DecidableEq

/-- The `type` tag of an `AVAILABLE_FONTS` entry (text-to-pdf.ts:50-65). -/
inductive FontType where
  | standard | noto
  deriving DecidableEq

/-- One `AVAILABLE_FONTS` entry. -/
structure FontDef where
  id : String
  type : FontType
  url : Option String
  deriving DecidableEq

/-- `AVAILABLE_FONTS` (text-to-pdf.ts:50-65); display names omitted, ids,
types and URLs as in the source. -/
def AVAILABLE_FONTS : List FontDef :=
  [ { id := "helvetica", type := .standard, url := none },
    { id := "times", type := .standard, url := none },
    { id := "courier", type := .standard, url := none },
    { id := "noto-sans", type := .noto,
      url := some "https://raw.githack.com/googlefonts/noto-fonts/main/hinted/ttf/NotoSans/NotoSans-Regular.ttf" },
    { id := "noto-sans-sc", type := .noto,
      url := some "https://raw.githack.com/googlefonts/noto-cjk/main/Sans/OTF/SimplifiedChinese/NotoSansCJKsc-Regular.otf" },
    { id := "noto-sans-tc", type := .noto,
      url := some "https://raw.githack.com/googlefonts/noto-cjk/main/Sans/OTF/TraditionalChinese/NotoSansCJKtc-Regular.otf" },
    { id := "noto-sans-jp", type := .noto,
      url := some "https://raw.githack.com/googlefonts/noto-cjk/main/Sans/OTF/Japanese/NotoSansCJKjp-Regular.otf" },
    { id := "noto-sans-kr", type := .noto,
      url := some "https://raw.githack.com/googlefonts/noto-cjk/main/Sans/OTF/Korean/NotoSansCJKkr-Regular.otf" },
    { id := "noto-sans-arabic", type := .noto,
      url := some "https://raw.githack.com/googlefonts/noto-fonts/main/hinted/ttf/NotoSansArabic/NotoSansArabic-Regular.ttf" },
    { id := "noto-sans-hebrew", type := .noto,
      url := some "https://raw.githack.com/googlefonts/noto-fonts/main/hinted/ttf/NotoSansHebrew/NotoSansHebrew-Regular.ttf" },
    { id := "noto-sans-thai", type := .noto,
      url := some "https://raw.githack.com/googlefonts/noto-fonts/main/hinted/ttf/NotoSansThai/NotoSansThai-Regular.ttf" },
    { id := "noto-sans-devanagari", type := .noto,
      url := some "https://raw.githack.com/googlefonts/noto-fonts/main/unhinted/ttf/NotoSansDevanagari/NotoSansDevanagari-Regular.ttf" } ]

/-- Page margins (text-to-pdf.ts:90-95). -/
structure TextMargin where
  top : ℚ
  right : ℚ
  bottom : ℚ
  left : ℚ
  deriving DecidableEq

/-- `TextToPDFOptions` (text-to-pdf.ts:72-102), fully resolved. -/
structure TextToPDFOptions where
  pageSize : TextPageSizeType
  customWidth : Option ℚ
  customHeight : Option ℚ
  orientation : PageOrientation
  fontId : String
  fontSize : ℚ
  lineHeight : ℚ
  textColor : TextColor
  margin : TextMargin
  preserveLineBreaks : Bool
  wrapLines : Bool
  directText : Option String
  deriving DecidableEq

/-- `DEFAULT_OPTIONS` (text-to-pdf.ts:107-122). -/
def TEXT_DEFAULT_OPTIONS : TextToPDFOptions :=
  { pageSize := .A4, customWidth := none, customHeight := none,
    orientation := .portrait, fontId := "helvetica", fontSize := 12,
    lineHeight := 1.5, textColor := { r := 0, g := 0, b := 0 },
    margin := { top := 72, right := 72, bottom := 72, left := 72 },
    preserveLineBreaks := true, wrapLines := true, directText := none }

/-- The caller-supplied `Partial<TextToPDFOptions>`. -/
structure TextOptionsIn where
  pageSize : Option TextPageSizeType := none
  customWidth : Option (Option ℚ) := none
  customHeight : Option (Option ℚ) := none
  orientation : Option PageOrientation := none
  fontId : Option String := none
  fontSize : Option ℚ := none
  lineHeight : Option ℚ := none
  textColor : Option TextColor := none
  margin : Option TextMargin := none
  preserveLineBreaks : Option Bool := none
  wrapLines : Option Bool := none
  directText : Option (Option String) := none
  deriving DecidableEq

/-- The options spread `{ ...DEFAULT_OPTIONS, ...options }`
(text-to-pdf.ts:238-241). -/
def mergeTextOptions (p : TextOptionsIn) : TextToPDFOptions :=
  { pageSize := p.pageSize.getD TEXT_DEFAULT_OPTIONS.pageSize
    customWidth := p.customWidth.getD TEXT_DEFAULT_OPTIONS.customWidth
    customHeight := p.customHeight.getD TEXT_DEFAULT_OPTIONS.customHeight
    orientation := p.orientation.getD TEXT_DEFAULT_OPTIONS.orientation
    fontId := p.fontId.getD TEXT_DEFAULT_OPTIONS.fontId
    fontSize := p.fontSize.getD TEXT_DEFAULT_OPTIONS.fontSize
    lineHeight := p.lineHeight.getD TEXT_DEFAULT_OPTIONS.lineHeight
    textColor := p.textColor.getD TEXT_DEFAULT_OPTIONS.textColor
    margin := p.margin.getD TEXT_DEFAULT_OPTIONS.margin
    preserveLineBreaks :=
      p.preserveLineBreaks.getD TEXT_DEFAULT_OPTIONS.preserveLineBreaks
    wrapLines := p.wrapLines.getD TEXT_DEFAULT_OPTIONS.wrapLines
    directText := p.directText.getD TEXT_DEFAULT_OPTIONS.directText }

/-- `hasDirectText` (text-to-pdf.ts:243): the option is present and its trim
is non-empty. -/
def hasDirectText (opts : TextToPDFOptions) : Bool :=
  match opts.directText with
  | none => false
  | some s => s.trim.length > 0

/-- The standard-font name map (text-to-pdf.ts:288-293), with the
`|| 'Helvetica'` fallback. -/
def standardFontName (id : String) : String :=
  if id = "helvetica" then "Helvetica"
  else if id = "times" then "TimesRoman"
  else if id = "courier" then "Courier"
  else "Helvetica"

/-- An input file: name and text content (`file.text()`). -/
structure TextFile where
  name : String
  text : String
  deriving DecidableEq

/-- `generateOutputFilename` (text-to-pdf.ts:443-449): one file keeps its
base name (the regex strips a final dot-extension containing neither `/`
nor `.`); several files get a counting name. -/
def generateOutputFilename (files : List TextFile) : String :=
  match files with
  | [f] =>
    let rev := f.name.toList.reverse
    let sp := rev.span (fun c => c ≠ '.' ∧ c ≠ '/')
    let baseName :=
      match sp.2 with
      | '.' :: baseRev =>
        if sp.1.isEmpty then f.name else baseRev.reverse.asString
      | _ => f.name
    baseName ++ ".pdf"
  | fs => "text_" ++ toString fs.length ++ "_files.pdf"

/-- Host behaviour for one text-to-pdf run.  The layout pass
`createPdfFromText` delegates entirely to the external object-model library
(string widths, page drawing); its observable result here is the page count
of the produced document, supplied by the environment (spec §1 places
layout quality out of scope; the pass emits no progress and catches its own
drawing errors). -/
structure TextEnv where
  cancelled : Nat → Bool
  libLoadFails : Bool
  readFails : Bool
  fontEnv : FontDBEnv
  fontState : FontCacheState
  embedFails : Bool
  saveFails : Bool
  layoutPageCount : Nat

/-- The outcome of a text-to-pdf run: a success carries the output filename
and the `pageCount`/`fileCount` metadata (text-to-pdf.ts:320-323). -/
inductive TextOutput where
  | success : String → Nat → Nat → TextOutput
  | failure : PDFErrorCode → String → Option String → TextOutput
  deriving DecidableEq

/-- A finished text-to-pdf run: outcome, progress values passed to the
observer, and the font-cache state after the run (the module-level cache
outlives the call). -/
structure TextRun where
  output : TextOutput
  trace : ProgressTrace
  fontState : FontCacheState

/-- Embedding of `TextToPDFProcessor.process` (text-to-pdf.ts:230-332):
validation, progress updates 5,10,20,(30,40 on the embedded-font path),
50,90,100, the cancellation checkpoint after the library load, the
`loadFont` call against the two-tier cache, and the catch-all mapping
exceptions to `PROCESSING_FAILED`. -/
def textToPdfProcess (env : TextEnv) (files : List TextFile)
    (optsIn : TextOptionsIn) : TextRun :=
  let opts := mergeTextOptions optsIn
  let direct := hasDirectText opts
  if files.length < 1 ∧ direct = false then
    { output := .failure .INVALID_OPTIONS
        "At least 1 text file or direct text input is required."
        (some ("Received " ++ toString files.length ++
          " file(s) and no direct text."))
      trace := [], fontState := env.fontState }
  else if env.libLoadFails then
    { output := .failure .PROCESSING_FAILED "Failed to convert text to PDF."
        (some "Failed to load PDF library")
      trace := [5], fontState := env.fontState }
  else if checkCancelled env.cancelled 0 then
    { output := .failure .PROCESSING_CANCELLED "Processing was cancelled."
        none
      trace := [5], fontState := env.fontState }
  else if direct = false ∧ env.readFails then
    { output := .failure .PROCESSING_FAILED "Failed to convert text to PDF."
        (some "Failed to read file")
      trace := [5, 10], fontState := env.fontState }
  else
    -- `AVAILABLE_FONTS.find(f => f.id === fontId) || AVAILABLE_FONTS[0]`
    let fontConfig :=
      (AVAILABLE_FONTS.find? (fun f => f.id = opts.fontId)).getD
        { id := "helvetica", type := .standard, url := none }
    match fontConfig.type with
    | .standard =>
      if env.embedFails then
        { output := .failure .PROCESSING_FAILED
            "Failed to convert text to PDF." (some "embedFont failed")
          trace := [5, 10, 20], fontState := env.fontState }
      else if env.saveFails then
        { output := .failure .PROCESSING_FAILED
            "Failed to convert text to PDF." (some "Failed to save PDF")
          trace := [5, 10, 20, 50, 90], fontState := env.fontState }
      else
        { output := .success
            (if direct then "from_text.pdf" else generateOutputFilename files)
            env.layoutPageCount (if direct then 0 else files.length)
          trace := [5, 10, 20, 50, 90, 100], fontState := env.fontState }
    | .noto =>
      match loadFont env.fontEnv env.fontState fontConfig.id
        (fontConfig.url.getD "") with
      | (.error e, s1) =>
        { output := .failure .PROCESSING_FAILED
            "Failed to convert text to PDF." (some e)
          trace := [5, 10, 20, 30], fontState := s1 }
      | (.ok _, s1) =>
        if env.embedFails then
          { output := .failure .PROCESSING_FAILED
              "Failed to convert text to PDF." (some "embedFont failed")
            trace := [5, 10, 20, 30, 40], fontState := s1 }
        else if env.saveFails then
          { output := .failure .PROCESSING_FAILED
              "Failed to convert text to PDF." (some "Failed to save PDF")
            trace := [5, 10, 20, 30, 40, 50, 90], fontState := s1 }
        else
          { output := .success
              (if direct then "from_text.pdf"
                else generateOutputFilename files)
              env.layoutPageCount (if direct then 0 else files.length)
            trace := [5, 10, 20, 30, 40, 50, 90, 100], fontState := s1 }

/-- A concrete project record for witness instances. -/
def sampleProject (st : ProjectStatus) : ProjectState :=
  { id := "p1", name := "job", toolId := "crop", toolName := none,
    createdAt := 0, updatedAt := 1, status := st,
    options := [], fileMetadata := [], progress := 50 }

/-- A concrete project update for witness instances. -/
def sampleUpdate : ProjectUpdate :=
  { name := some "renamed", status := some ProjectStatus.paused,
    progress := some 75 }

/-- The pure effect of the crop page loop when cancellation is never
observed: apply each in-range entry, skip out-of-range entries.  Used to
state what `cropLoop` computes. -/
def cropApplied (pages : List CropPage) :
    List (Int × CropData) → List CropPage
  | [] => pages
  | (pageNum, crop) :: rest =>
    let pageIndex : Int := pageNum - 1
    if pageIndex < 0 ∨ (pages.length : Int) ≤ pageIndex then
      cropApplied pages rest
    else
      cropApplied (modifyPage (setCropBoxCalc crop) pageIndex.toNat pages) rest

/-- A concrete host environment for font-cache witnesses: everything
succeeds and one URL is fetchable. -/
def sampleFontEnv : FontDBEnv :=
  { openFails := false
    getFails := false
    putFails := false
    fetch := fun u => if u = "font-url" then some [1, 2, 3] else none }

/-- A concrete recent-file entry generator for witness instances. -/
def mkRecent (i : Nat) : RecentFile :=
  { id := toString i, name := "file" ++ toString i, size := i,
    processedAt := i, toolUsed := "crop", toolName := none }

/-- A crop-run host environment in which nothing fails and cancellation is
never requested. -/
def sampleCropEnvOk : CropEnv :=
  { cancelled := fun _ => false
    libLoadFails := false
    docLoadFails := false
    saveFails := false }

/-- A concrete crop rectangle for witness instances. -/
def sampleCropData : CropData := { x := 0, y := 0, width := 1/2, height := 1/2 }

/-- A concrete US-letter page for witness instances. -/
def samplePage : CropPage := { width := 612, height := 792, cropBox := none }

/-- A recent-file entry sharing `(name, toolUsed)` with `mkRecent 0` but
with a fresh id and timestamp, for the duplicate-insert witness. -/
def sampleDupRecent : RecentFile :=
  { id := "dup", name := "file0", size := 9, processedAt := 99,
    toolUsed := "crop", toolName := none }

/-- A sanitize-run host environment in which nothing fails and cancellation
is never requested, over a one-page document. -/
def sampleSanEnv : SanEnv :=
  { cancelled := fun _ => false
    libLoadFails := false
    readFails := false
    loadResult := SanLoadResult.ok { pages := [{}] }
    saveFails := false
    fileSize := 100
    savedSize := 90 }

/-- A text-to-pdf host environment in which nothing fails and cancellation
is never requested. -/
def sampleTextEnv : TextEnv :=
  { cancelled := fun _ => false
    libLoadFails := false
    readFails := false
    fontEnv := sampleFontEnv
    fontState := { mem := [], db := [] }
    embedFails := false
    saveFails := false
    layoutPageCount := 1 }

/-! ## Theorems -/

/-- C10: `getRecentFiles` is total and never throws: for every backing-store
state — storage unavailable, key absent, stored value that is not valid
JSON, or JSON that is not an array — it returns the empty list, and
otherwise it returns the parsed array. -/
theorem c10_getRecentFiles_total (available : Bool) (raw : RawStored) :
    (available = false → getRecentFiles available raw = []) ∧
    (raw = RawStored.absent → getRecentFiles available raw = []) ∧
    (raw = RawStored.notJson → getRecentFiles available raw = []) ∧
    (raw = RawStored.jsonNonArray → getRecentFiles available raw = []) ∧
    (∀ files, available = true → raw = RawStored.jsonArray files →
      getRecentFiles available raw = files) := by
  cases available <;> cases raw <;> simp [getRecentFiles]

/-- C10 witness: `getRecentFiles` at a malformed store and at a parsed
one-element array. -/
theorem c10_getRecentFiles_total_witness :
    getRecentFiles false RawStored.notJson = [] ∧
    getRecentFiles true (RawStored.jsonArray
      [{ id := "1", name := "a.pdf", size := 3, processedAt := 0,
         toolUsed := "crop", toolName := none }]) =
      [{ id := "1", name := "a.pdf", size := 3, processedAt := 0,
         toolUsed := "crop", toolName := none }] :=
  ⟨(c10_getRecentFiles_total false RawStored.notJson).1 rfl,
   (c10_getRecentFiles_total true _).2.2.2.2 _ rfl rfl⟩

/-- C2 counterexample: on a stored project with status `completed`, an
update with `status: 'in_progress'` is applied silently — `updateProject`
resolves with the record and stores it with status `in_progress`, so the
stored status does not stay `completed` as the claim requires. -/
theorem c2_completed_to_in_progress_applied :
    updateProject { dbAvailable := true, getFails := false, putFails := false }
      [{ id := "p1", name := "job", toolId := "crop", toolName := none,
         createdAt := 0, updatedAt := 1, status := ProjectStatus.completed,
         options := [], fileMetadata := [], progress := 50 }]
      "p1" { status := some ProjectStatus.in_progress } 2 =
    Except.ok
      (some { id := "p1", name := "job", toolId := "crop", toolName := none,
              createdAt := 0, updatedAt := 2,
              status := ProjectStatus.in_progress,
              options := [], fileMetadata := [], progress := 50 },
       [{ id := "p1", name := "job", toolId := "crop", toolName := none,
          createdAt := 0, updatedAt := 2,
          status := ProjectStatus.in_progress,
          options := [], fileMetadata := [], progress := 50 }]) := by
  rfl

/-- C2 amended: `updateProject` has no status-transition guard — a partial
update carrying `status: 'in_progress'` against a stored `completed` project
is applied silently: the call resolves with the merged record, the record is
stored, and its status is `in_progress` (the backward transition is neither
rejected nor ignored). -/
theorem c2_status_update_unguarded (store : ProjectStore) (id : String)
    (u : ProjectUpdate) (now : Nat) (p : ProjectState)
    (hget : storeGet store id = some p)
    (hp : p.status = ProjectStatus.completed)
    (hs : u.status = some ProjectStatus.in_progress) :
    updateProject { dbAvailable := true, getFails := false, putFails := false }
        store id u now =
      Except.ok (some (mergeProject p u now),
        storePut store (mergeProject p u now)) ∧
    (mergeProject p u now).status = ProjectStatus.in_progress := by
  refine ⟨?_, ?_⟩
  · simp [updateProject, hget]
  · simp [mergeProject, hs]

/-- C2 amended witness: the concrete `completed` project of the
counterexample, run through the amended theorem. -/
theorem c2_status_update_unguarded_witness :
    storeGet [sampleProject ProjectStatus.completed] "p1" =
      some (sampleProject ProjectStatus.completed) ∧
    (sampleProject ProjectStatus.completed).status =
      ProjectStatus.completed ∧
    (mergeProject (sampleProject ProjectStatus.completed)
        { status := some ProjectStatus.in_progress } 2).status =
      ProjectStatus.in_progress :=
  ⟨by rfl, by rfl,
   (c2_status_update_unguarded [sampleProject ProjectStatus.completed] "p1"
      { status := some ProjectStatus.in_progress } 2
      (sampleProject ProjectStatus.completed) (by rfl) (by rfl) (by rfl)).2⟩

/-- C5: for an existing project `p`, a valid partial update (one that does
not try to set the store-managed `updatedAt`) applied at a strictly later
wall-clock instant yields a stored record reflecting every present field of
the update, with `updatedAt` strictly greater than `p.updatedAt` and
`id`/`createdAt` preserved; on an unknown id, `updateProject` resolves with
`null` (it does not reject). -/
theorem c5_updateProject_reflects_updates (store : ProjectStore) (id : String)
    (u : ProjectUpdate) (now : Nat) (hupd : u.updatedAt = none) :
    (storeGet store id = none →
      updateProject { dbAvailable := true, getFails := false, putFails := false }
        store id u now = Except.ok (none, store)) ∧
    (∀ p, storeGet store id = some p → p.updatedAt < now →
      updateProject { dbAvailable := true, getFails := false, putFails := false }
          store id u now =
        Except.ok (some (mergeProject p u now),
          storePut store (mergeProject p u now)) ∧
      p.updatedAt < (mergeProject p u now).updatedAt ∧
      (∀ v, u.name = some v → (mergeProject p u now).name = v) ∧
      (∀ v, u.toolId = some v → (mergeProject p u now).toolId = v) ∧
      (∀ v, u.toolName = some v → (mergeProject p u now).toolName = v) ∧
      (∀ v, u.status = some v → (mergeProject p u now).status = v) ∧
      (∀ v, u.options = some v → (mergeProject p u now).options = v) ∧
      (∀ v, u.fileMetadata = some v →
        (mergeProject p u now).fileMetadata = v) ∧
      (∀ v, u.progress = some v → (mergeProject p u now).progress = v) ∧
      (mergeProject p u now).id = p.id ∧
      (mergeProject p u now).createdAt = p.createdAt) := by
  refine ⟨fun hnone => ?_, fun p hget hlt => ?_⟩
  · simp [updateProject, hnone]
  · refine ⟨by simp [updateProject, hget], by simpa [mergeProject] using hlt,
      ?_, ?_, ?_, ?_, ?_, ?_, ?_, by simp [mergeProject],
      by simp [mergeProject]⟩ <;>
    · intro v hv
      simp [mergeProject, hv]

/-- C5 witness: a concrete update of name, status and progress against a
one-project store at a later instant, and a lookup of an absent id. -/
theorem c5_updateProject_reflects_updates_witness :
    sampleUpdate.updatedAt = none ∧
    storeGet [sampleProject ProjectStatus.in_progress] "p1" =
      some (sampleProject ProjectStatus.in_progress) ∧
    (sampleProject ProjectStatus.in_progress).updatedAt < 9 ∧
    storeGet [sampleProject ProjectStatus.in_progress] "missing" = none ∧
    updateProject { dbAvailable := true, getFails := false, putFails := false }
        [sampleProject ProjectStatus.in_progress] "missing" sampleUpdate 9 =
      Except.ok (none, [sampleProject ProjectStatus.in_progress]) ∧
    (mergeProject (sampleProject ProjectStatus.in_progress) sampleUpdate
      9).name = "renamed" ∧
    (sampleProject ProjectStatus.in_progress).updatedAt <
      (mergeProject (sampleProject ProjectStatus.in_progress) sampleUpdate
        9).updatedAt := by
  refine ⟨rfl, rfl, by norm_num [sampleProject], rfl, ?_, ?_, ?_⟩
  · exact (c5_updateProject_reflects_updates
      [sampleProject ProjectStatus.in_progress] "missing" sampleUpdate 9
      rfl).1 rfl
  · exact ((c5_updateProject_reflects_updates
      [sampleProject ProjectStatus.in_progress] "p1" sampleUpdate 9 rfl).2
      (sampleProject ProjectStatus.in_progress) rfl
      (by norm_num [sampleProject])).2.2.1 "renamed" rfl
  · exact ((c5_updateProject_reflects_updates
      [sampleProject ProjectStatus.in_progress] "p1" sampleUpdate 9 rfl).2
      (sampleProject ProjectStatus.in_progress) rfl
      (by norm_num [sampleProject])).2.1

/-- C1 (evaluating the code at the failing input): with the cancellation
flag observed at a checkpoint, `CropProcessor.process` resolves with a
`PROCESSING_FAILED` failure (its page-loop checkpoint throws
`'Processing cancelled'` and the catch-all maps every exception to
`PROCESSING_FAILED` / `'Failed to crop PDF.'`), while
`SanitizePDFProcessor.process` resolves with the `PROCESSING_CANCELLED`
failure the claim requires; neither returns a partial output blob. -/
theorem c1_cancel_crop_failed_sanitize_cancelled :
    cropProcess
      { cancelled := fun _ => true
        libLoadFails := false
        docLoadFails := false
        saveFails := false } 1 "doc.pdf"
      [{ width := 612, height := 792, cropBox := none }]
      { cropData := [(1, { x := 0, y := 0, width := 1/2, height := 1/2 })],
        mode := none } =
      (CropOutput.failure PDFErrorCode.PROCESSING_FAILED
        "Failed to crop PDF." (some "Processing cancelled"), [10, 20]) ∧
    sanitizeProcess
      { cancelled := fun _ => true
        libLoadFails := false
        readFails := false
        loadResult := SanLoadResult.ok {}
        saveFails := false
        fileSize := 100
        savedSize := 90 } 1 "doc.pdf" {} =
      (SanOutput.failure PDFErrorCode.PROCESSING_CANCELLED
        "Processing was cancelled." none, [5]) :=
  ⟨rfl, rfl⟩

/-- `assocPut` then `assocGet` at the same key yields the stored value. -/
theorem assocGet_assocPut_same (k : String) (v : Buffer)
    (l : List (String × Buffer)) : assocGet k (assocPut k v l) = some v := by
  simp [assocGet, assocPut]

/-- C3: putting bytes `b` under key `k` (as `loadFont` does after a fetch)
followed by a lookup of `k` returns `b`, even after the in-memory tier is
emptied: the durable tier still answers with `b` and the lookup repopulates
the memory tier. -/
theorem c3_font_cache_roundtrip (env : FontDBEnv) (s : FontCacheState)
    (k url : String) (b : Buffer)
    (hopen : env.openFails = false) (hget : env.getFails = false)
    (hput : env.putFails = false) (hfetch : env.fetch url = some b)
    (hmem : assocGet k s.mem = none) (hdb : assocGet k s.db = none) :
    loadFont env s k url =
      (Except.ok b,
        { mem := assocPut k b s.mem, db := assocPut k b s.db }) ∧
    (loadFont env { mem := [], db := (loadFont env s k url).2.db } k
        url).1 = Except.ok b ∧
    assocGet k
      (loadFont env { mem := [], db := (loadFont env s k url).2.db } k
        url).2.mem = some b := by
  have h1 : loadFont env s k url =
      (Except.ok b,
        { mem := assocPut k b s.mem, db := assocPut k b s.db }) := by
    simp [loadFont, getCachedFontFromDB, saveFontToDB, hmem, hdb, hfetch,
      hopen, hget, hput]
  have hmem2 : assocGet k ([] : List (String × Buffer)) = none := rfl
  have hdb2 : assocGet k (assocPut k b s.db) = some b :=
    assocGet_assocPut_same k b s.db
  refine ⟨h1, ?_, ?_⟩ <;>
  · rw [h1]
    simp [loadFont, getCachedFontFromDB, hmem2, hdb2, hopen, hget,
      assocGet_assocPut_same]

/-- C3 witness: a fresh cache, a fetchable URL, and the round trip after
emptying the memory tier. -/
theorem c3_font_cache_roundtrip_witness :
    sampleFontEnv.openFails = false ∧ sampleFontEnv.getFails = false ∧
    sampleFontEnv.putFails = false ∧
    sampleFontEnv.fetch "font-url" = some [1, 2, 3] ∧
    assocGet "noto-sans" ([] : List (String × Buffer)) = none ∧
    (loadFont sampleFontEnv
        { mem := [],
          db := (loadFont sampleFontEnv { mem := [], db := [] } "noto-sans"
            "font-url").2.db } "noto-sans" "font-url").1 =
      Except.ok [1, 2, 3] :=
  ⟨rfl, rfl, rfl, rfl, rfl,
   (c3_font_cache_roundtrip sampleFontEnv { mem := [], db := [] }
      "noto-sans" "font-url" [1, 2, 3] rfl rfl rfl rfl rfl rfl).2.1⟩

/-- C4 (evaluating the code at the failing input): when `openFontDB`
succeeds but the durable `put` request fails, the rejection escapes
`saveFontToDB`'s `catch` (the promise is returned, not awaited) and
`loadFont` rejects — even though the memory tier already holds the fetched
bytes.  By contrast, a failure of `openFontDB` itself *is* swallowed and
`loadFont` resolves with the bytes. -/
theorem c4_put_failure_escapes_loadFont :
    (loadFont
      { openFails := false
        getFails := false
        putFails := true
        fetch := fun _ => some [7] } { mem := [], db := [] } "noto-sans"
      "u").1 = Except.error "font put request failed" ∧
    assocGet "noto-sans"
      (loadFont
        { openFails := false
          getFails := false
          putFails := true
          fetch := fun _ => some [7] } { mem := [], db := [] } "noto-sans"
        "u").2.mem = some [7] ∧
    (loadFont
      { openFails := true
        getFails := false
        putFails := true
        fetch := fun _ => some [7] } { mem := [], db := [] } "noto-sans"
      "u").1 = Except.ok [7] :=
  ⟨rfl, rfl, rfl⟩

/-- C8: for every input and crop map, running the crop processor in
`destructive` mode produces the same outcome, output document bytes,
metadata and progress trace as `metadata` mode
(`performDestructiveCrop` delegates to `performMetadataCrop`); only the
output filename suffix differs (`_cropped_flattened.pdf` vs
`_cropped.pdf`). -/
theorem c8_destructive_mode_equals_metadata_mode (env : CropEnv)
    (fileCount : Nat) (fileName : String) (pages : List CropPage)
    (entries : List (Int × CropData)) :
    (cropProcess env fileCount fileName pages
        { cropData := entries, mode := some CropMode.destructive }).2 =
      (cropProcess env fileCount fileName pages
        { cropData := entries, mode := some CropMode.metadata }).2 ∧
    ((cropProcess env fileCount fileName pages
        { cropData := entries,
          mode := some CropMode.destructive }).1).withFilename
        (replacePdfSuffix fileName "_cropped.pdf") =
      (cropProcess env fileCount fileName pages
        { cropData := entries, mode := some CropMode.metadata }).1 ∧
    (cropProcess env fileCount fileName pages
        { cropData := entries, mode := some CropMode.destructive }).1 =
      ((cropProcess env fileCount fileName pages
        { cropData := entries,
          mode := some CropMode.metadata }).1).withFilename
        (replacePdfSuffix fileName "_cropped_flattened.pdf") := by
  by_cases h1 : fileCount ≠ 1
  · simp [cropProcess, h1, CropOutput.withFilename]
  · by_cases h2 : entries.isEmpty
    · simp [cropProcess, h1, h2, CropOutput.withFilename]
    · by_cases h3 : env.libLoadFails
      · simp [cropProcess, h1, h2, h3, CropOutput.withFilename]
      · rcases hpm : performMetadataCrop env pages entries with ⟨res, tr⟩
        have hpd : performDestructiveCrop env pages entries = (res, tr) := hpm
        cases res <;>
          simp [cropProcess, h1, h2, h3, hpm, hpd, CropOutput.withFilename]

/-- When the cancellation flag is never observed, the crop page loop
computes exactly `cropApplied`: each in-range entry is applied, each
out-of-range entry is skipped. -/
theorem cropLoop_no_cancel (c : Nat → Bool) (hc : ∀ i, c i = false)
    (n : Nat) (rest : List (Int × CropData)) :
    ∀ (i : Nat) (pages : List CropPage),
      (cropLoop c n i pages rest).1 = Except.ok (cropApplied pages rest) := by
  induction rest with
  | nil => intro i pages; rfl
  | cons hd tl ih =>
    intro i pages
    obtain ⟨pageNum, crop⟩ := hd
    by_cases hrange :
        (pageNum - 1 : Int) < 0 ∨ (pages.length : Int) ≤ pageNum - 1
    · simp only [cropLoop, cropApplied, checkCancelled, hc,
        Bool.false_eq_true, if_false, if_pos hrange]
      exact ih (i + 1) pages
    · simp only [cropLoop, cropApplied, checkCancelled, hc,
        Bool.false_eq_true, if_false, if_neg hrange]
      rcases hres : cropLoop c n (i + 1)
        (modifyPage (setCropBoxCalc crop) (pageNum - 1).toNat pages) tl
        with ⟨res, tr⟩
      have := ih (i + 1)
        (modifyPage (setCropBoxCalc crop) (pageNum - 1).toNat pages)
      rw [hres] at this
      simpa [hres] using this

/-- C9: a crop run whose `cropData` may contain out-of-range page numbers
still succeeds when nothing else fails: out-of-range entries are silently
skipped (`cropApplied` drops them without mutating any page), and the
reported `pagesCropped` metadata equals the total number of `cropData`
entries — skipped entries included — not the number of pages modified. -/
theorem c9_out_of_range_entries_counted (env : CropEnv) (fileName : String)
    (pages : List CropPage) (entries : List (Int × CropData))
    (mode : Option CropMode) (hne : entries ≠ [])
    (hcancel : ∀ i, env.cancelled i = false)
    (hlib : env.libLoadFails = false) (hdoc : env.docLoadFails = false)
    (hsave : env.saveFails = false) :
    (cropProcess env 1 fileName pages
        { cropData := entries, mode := mode }).1 =
      CropOutput.success (cropApplied pages entries)
        (replacePdfSuffix fileName
          (if mode = some CropMode.destructive then "_cropped_flattened.pdf"
           else "_cropped.pdf"))
        entries.length ∧
    (∀ (pn : Int) (c : CropData) (rest : List (Int × CropData))
        (ps : List CropPage), pn ≤ 0 ∨ (ps.length : Int) < pn →
      cropApplied ps ((pn, c) :: rest) = cropApplied ps rest) := by
  constructor
  · have hloop := cropLoop_no_cancel env.cancelled hcancel entries.length
      entries 0 pages
    rcases hres : cropLoop env.cancelled entries.length 0 pages entries
      with ⟨res, tr⟩
    rw [hres] at hloop
    simp only at hloop
    subst hloop
    by_cases hmode : mode = some CropMode.destructive <;>
      simp [cropProcess, performMetadataCrop, performDestructiveCrop, hlib,
        hdoc, hsave, hres, hne, hmode]
  · intro pn c rest ps h
    have h' : (pn - 1 : Int) < 0 ∨ (ps.length : Int) ≤ pn - 1 := by omega
    simp only [cropApplied]
    rw [if_pos h']

/-- C9 witness: a one-page document with crop entries for pages 1 and 5 —
the run succeeds, reports `pagesCropped = 2`, and the out-of-range entry
for page 5 leaves the document untouched. -/
theorem c9_out_of_range_entries_counted_witness :
    ([((1 : Int), sampleCropData), ((5 : Int), sampleCropData)] ≠
      ([] : List (Int × CropData))) ∧
    (∀ i, sampleCropEnvOk.cancelled i = false) ∧
    (cropProcess sampleCropEnvOk 1 "doc.pdf" [samplePage]
        { cropData := [((1 : Int), sampleCropData),
            ((5 : Int), sampleCropData)],
          mode := none }).1 =
      CropOutput.success
        (cropApplied [samplePage]
          [((1 : Int), sampleCropData), ((5 : Int), sampleCropData)])
        (replacePdfSuffix "doc.pdf" "_cropped.pdf") 2 ∧
    cropApplied [samplePage] [((5 : Int), sampleCropData)] = [samplePage] := by
  refine ⟨by simp, fun i => rfl, ?_, ?_⟩
  · exact (c9_out_of_range_entries_counted sampleCropEnvOk "doc.pdf"
      [samplePage]
      [((1 : Int), sampleCropData), ((5 : Int), sampleCropData)] none
      (by simp) (fun i => rfl) rfl rfl rfl).1
  · exact ((c9_out_of_range_entries_counted sampleCropEnvOk "doc.pdf"
      [samplePage]
      [((1 : Int), sampleCropData), ((5 : Int), sampleCropData)] none
      (by simp) (fun i => rfl) rfl rfl rfl).2 5 sampleCropData []
      [samplePage] (by norm_num))

/-- `insertRecent` written out: prepend the new entry to the deduplicated
list and truncate to the cap. -/
theorem insertRecent_eq (s : List RecentFile) (e : RecentFile) :
    insertRecent s e =
      (e :: s.filter (fun f => ¬ sameKey e.name e.toolUsed f)).take 10 := rfl

/-- Splitting a list's length by a decidable predicate. -/
theorem length_filter_split (p : RecentFile → Prop) [DecidablePred p]
    (l : List RecentFile) :
    (l.filter (fun f => p f)).length +
      (l.filter (fun f => ¬ p f)).length = l.length := by
  induction l with
  | nil => rfl
  | cons a t ih => by_cases hp : p a <;> simp [hp] at ih ⊢ <;> omega

/-- Folding `addRecentFile` over entries with pairwise-distinct
`(name, toolUsed)` keys keeps the latest 10 entries, most recent first. -/
theorem insertAll_distinct (es : List RecentFile)
    (hdist : es.Pairwise (fun a b => ¬ sameKey b.name b.toolUsed a)) :
    insertAll es [] = es.reverse.take 10 := by
  induction es using List.reverseRecOn with
  | nil => rfl
  | append_singleton es e ih =>
    rw [List.pairwise_append] at hdist
    obtain ⟨h1, -, h3⟩ := hdist
    have hstate := ih h1
    have hsub : ∀ f ∈ insertAll es [], ¬ sameKey e.name e.toolUsed f := by
      intro f hf
      rw [hstate] at hf
      exact h3 f (List.mem_reverse.mp (List.take_subset _ _ hf)) e
        (List.mem_singleton_self e)
    have happ : insertAll (es ++ [e]) [] =
        insertRecent (insertAll es []) e := by
      simp [insertAll, List.foldl_append]
    have hfilter : (List.take 10 es.reverse).filter
        (fun f => ¬ sameKey e.name e.toolUsed f) = List.take 10 es.reverse := by
      rw [List.filter_eq_self]
      intro a ha
      simpa using hsub a (by rw [hstate]; exact ha)
    rw [happ, insertRecent_eq, hstate, hfilter, List.reverse_append,
      List.reverse_singleton, List.singleton_append]
    rw [show (10 : Nat) = 9 + 1 from rfl, List.take_succ_cons,
      List.take_succ_cons, List.take_take]
    norm_num

/-- C6: after 11 `addRecentFile` calls with pairwise-distinct
`(name, toolUsed)` keys the stored list holds exactly the 10 most recent
entries, most-recently-processed first; and inserting an entry whose key
already occurs (once, in a list within the cap) removes the old occurrence
and places the new entry at the front without growing the list. -/
theorem c6_recent_files_cap_and_dedup (es : List RecentFile)
    (h11 : es.length = 11)
    (hdist : es.Pairwise (fun a b => ¬ sameKey b.name b.toolUsed a))
    (e : RecentFile) (l : List RecentFile) (hlen : l.length ≤ 10)
    (hdup : (l.filter (fun f => sameKey e.name e.toolUsed f)).length = 1) :
    insertAll es [] = es.reverse.take 10 ∧
    (insertAll es []).length = 10 ∧
    (insertRecent l e).head? = some e ∧
    (insertRecent l e).length = l.length := by
  have h1 := insertAll_distinct es hdist
  refine ⟨h1, ?_, ?_, ?_⟩
  · rw [h1]
    simp [h11]
  · rw [insertRecent_eq, show (10 : Nat) = 9 + 1 from rfl,
      List.take_succ_cons]
    rfl
  · have hsplit :=
      length_filter_split (fun f => sameKey e.name e.toolUsed f) l
    rw [insertRecent_eq]
    simp only [List.length_take, List.length_cons]
    omega

/-- C6 witness: eleven concrete distinct entries, and a duplicate-key
insert into a one-entry list. -/
theorem c6_recent_files_cap_and_dedup_witness :
    ((List.range 11).map mkRecent).length = 11 ∧
    ((List.range 11).map mkRecent).Pairwise
      (fun a b => ¬ sameKey b.name b.toolUsed a) ∧
    ([mkRecent 0].length ≤ 10) ∧
    ([mkRecent 0].filter
      (fun f => sameKey sampleDupRecent.name sampleDupRecent.toolUsed
        f)).length = 1 ∧
    (insertAll ((List.range 11).map mkRecent) []).length = 10 ∧
    (insertRecent [mkRecent 0] sampleDupRecent).head? =
      some sampleDupRecent ∧
    (insertRecent [mkRecent 0] sampleDupRecent).length =
      [mkRecent 0].length := by
  have main := c6_recent_files_cap_and_dedup ((List.range 11).map mkRecent)
    (by decide) (by decide) sampleDupRecent [mkRecent 0] (by decide)
    (by decide)
  exact ⟨by decide, by decide, by decide, by decide, main.2.1, main.2.2.1,
    main.2.2.2⟩

/-- The crop loop's progress value never falls below 30. -/
theorem cropStep_ge_30 (i n : Nat) :
    (30 : ℚ) ≤ 30 + 60 * ((i : ℚ) + 1) / (n : ℚ) := by
  have h : (0 : ℚ) ≤ 60 * ((i : ℚ) + 1) / (n : ℚ) := by positivity
  linarith

/-- The crop loop's progress value grows with the entry index. -/
theorem cropStep_mono (i n : Nat) :
    30 + 60 * ((i : ℚ) + 1) / (n : ℚ) ≤
      30 + 60 * (((i : ℚ) + 1) + 1) / (n : ℚ) := by
  rcases Nat.eq_zero_or_pos n with hn | hn
  · subst hn; norm_num
  · have hnQ : (0 : ℚ) < (n : ℚ) := by exact_mod_cast hn
    have := (div_le_div_iff_of_pos_right hnQ).mpr
      (by linarith : (60 : ℚ) * ((i : ℚ) + 1) ≤ 60 * (((i : ℚ) + 1) + 1))
    linarith

/-- The crop loop's progress value stays at or below 90 while entries
remain. -/
theorem cropStep_le_90 (i n : Nat) (h : i + 1 ≤ n) :
    30 + 60 * ((i : ℚ) + 1) / (n : ℚ) ≤ 90 := by
  have hnQ : (0 : ℚ) < (n : ℚ) := by
    exact_mod_cast Nat.lt_of_lt_of_le (Nat.zero_lt_succ i) h
  have hle : ((i : ℚ) + 1) ≤ (n : ℚ) := by exact_mod_cast h
  have hdiv : 60 * ((i : ℚ) + 1) / (n : ℚ) ≤ 60 := by
    rw [div_le_iff₀ hnQ]; nlinarith
  linarith

/-- The progress values emitted by the crop page loop are sorted and lie
between the loop's starting value and 90. -/
theorem cropLoop_trace_bounds (c : Nat → Bool) (n : Nat)
    (rest : List (Int × CropData)) :
    ∀ (i : Nat) (pages : List CropPage), i + rest.length ≤ n →
      ((cropLoop c n i pages rest).2.Pairwise (· ≤ ·) ∧
       ∀ v ∈ (cropLoop c n i pages rest).2,
         30 + 60 * ((i : ℚ) + 1) / (n : ℚ) ≤ v ∧ v ≤ 90) := by
  induction rest with
  | nil => intro i pages _; simp [cropLoop]
  | cons hd tl ih =>
    intro i pages h
    obtain ⟨pageNum, crop⟩ := hd
    by_cases hcanc : checkCancelled c i
    · simp [cropLoop, hcanc]
    · by_cases hrange :
          (pageNum - 1 : Int) < 0 ∨ (pages.length : Int) ≤ pageNum - 1
      · have hih := ih (i + 1) pages
          (by simp only [List.length_cons] at h; omega)
        simp only [cropLoop, if_neg hcanc, if_pos hrange]
        refine ⟨hih.1, fun v hv => ⟨?_, (hih.2 v hv).2⟩⟩
        have hlo := (hih.2 v hv).1
        have hmono := cropStep_mono i n
        have hcast : ((i + 1 : Nat) : ℚ) = (i : ℚ) + 1 := by push_cast; ring
        rw [hcast] at hlo
        linarith
      · rcases hres : cropLoop c n (i + 1)
          (modifyPage (setCropBoxCalc crop) (pageNum - 1).toNat pages) tl
          with ⟨res, tr⟩
        have hih := ih (i + 1)
          (modifyPage (setCropBoxCalc crop) (pageNum - 1).toNat pages)
          (by simp only [List.length_cons] at h; omega)
        rw [hres] at hih
        simp only at hih
        simp only [cropLoop, if_neg hcanc, if_neg hrange, hres]
        have hcast : ((i + 1 : Nat) : ℚ) = (i : ℚ) + 1 := by push_cast; ring
        have hmono := cropStep_mono i n
        constructor
        · rw [List.pairwise_cons]
          refine ⟨fun v hv => ?_, hih.1⟩
          have := (hih.2 v hv).1
          rw [hcast] at this
          linarith
        · intro v hv
          rcases List.mem_cons.mp hv with hv | hv
          · subst hv
            exact ⟨le_refl _,
              cropStep_le_90 i n
                (by simp only [List.length_cons] at h; omega)⟩
          · refine ⟨?_, (hih.2 v hv).2⟩
            have := (hih.2 v hv).1
            rw [hcast] at this
            linarith

/-- Gluing the crop loop trace between the fixed updates 10, 20 and the
optional final 100. -/
theorem crop_trace_glue (tr : List ℚ) (htr : tr.Pairwise (· ≤ ·))
    (hb : ∀ v ∈ tr, (20 : ℚ) ≤ v ∧ v ≤ 90) :
    (((10 : ℚ) :: 20 :: tr).Pairwise (· ≤ ·) ∧
      ∀ v ∈ (10 : ℚ) :: 20 :: tr, 0 ≤ v ∧ v ≤ 100) ∧
    (((10 : ℚ) :: 20 :: (tr ++ [100])).Pairwise (· ≤ ·) ∧
      ∀ v ∈ (10 : ℚ) :: 20 :: (tr ++ [100]), 0 ≤ v ∧ v ≤ 100) := by
  have htr' : (tr ++ [100]).Pairwise (· ≤ ·) := by
    rw [List.pairwise_append]
    exact ⟨htr, List.pairwise_singleton _ _,
      fun a ha b hb' => by
        simp only [List.mem_singleton] at hb'
        subst hb'
        have := (hb a ha).2
        linarith⟩
  have hmem : ∀ v ∈ tr ++ [100], (20 : ℚ) ≤ v ∧ v ≤ 100 := by
    intro v hv
    rcases List.mem_append.mp hv with hv | hv
    · exact ⟨(hb v hv).1, by have := (hb v hv).2; linarith⟩
    · simp only [List.mem_singleton] at hv
      subst hv
      norm_num
  constructor
  · constructor
    · rw [List.pairwise_cons, List.pairwise_cons]
      refine ⟨fun v hv => ?_, fun v hv => (hb v hv).1, htr⟩
      rcases List.mem_cons.mp hv with hv | hv
      · subst hv; norm_num
      · have := (hb v hv).1; linarith
    · intro v hv
      rcases List.mem_cons.mp hv with hv | hv
      · subst hv; norm_num
      · rcases List.mem_cons.mp hv with hv | hv
        · subst hv; norm_num
        · have := hb v hv
          constructor <;> linarith [this.1, this.2]
  · constructor
    · rw [List.pairwise_cons, List.pairwise_cons]
      refine ⟨fun v hv => ?_, fun v hv => (hmem v hv).1, htr'⟩
      rcases List.mem_cons.mp hv with hv | hv
      · subst hv; norm_num
      · have := (hmem v hv).1; linarith
    · intro v hv
      rcases List.mem_cons.mp hv with hv | hv
      · subst hv; norm_num
      · rcases List.mem_cons.mp hv with hv | hv
        · subst hv; norm_num
        · have := hmem v hv
          constructor <;> linarith [this.1, this.2]

/-- The crop processor's full progress trace is sorted and bounded. -/
theorem crop_trace_sorted_bounded (env : CropEnv) (fileCount : Nat)
    (fileName : String) (pages : List CropPage) (opts : CropOptions) :
    ((cropProcess env fileCount fileName pages opts).2.Pairwise (· ≤ ·)) ∧
    ∀ v ∈ (cropProcess env fileCount fileName pages opts).2,
      0 ≤ v ∧ v ≤ 100 := by
  by_cases h1 : fileCount ≠ 1
  · simp [cropProcess, h1]
  · by_cases h2 : opts.cropData.isEmpty
    · simp [cropProcess, h1, h2]
    · by_cases h3 : env.libLoadFails
      · refine ⟨?_, ?_⟩ <;> simp [cropProcess, h1, h2, h3] <;> norm_num
      · rcases hres : cropLoop env.cancelled opts.cropData.length 0 pages
          opts.cropData with ⟨res, tr⟩
        have hloop := cropLoop_trace_bounds env.cancelled
          opts.cropData.length opts.cropData 0 pages (by omega)
        rw [hres] at hloop
        simp only at hloop
        have hb : ∀ v ∈ tr, (20 : ℚ) ≤ v ∧ v ≤ 90 := by
          intro v hv
          have h30 := cropStep_ge_30 0 opts.cropData.length
          have := hloop.2 v hv
          norm_num at h30
          exact ⟨by linarith [this.1], this.2⟩
        have hglue := crop_trace_glue tr hloop.1 hb
        by_cases h4 : env.docLoadFails
        · refine ⟨?_, ?_⟩ <;>
            simp [cropProcess, performMetadataCrop, performDestructiveCrop,
              h1, h2, h3, h4, ite_self] <;> norm_num
        · by_cases h5 : env.saveFails
          · cases res <;>
              · have := hglue.1
                simp only [cropProcess, performMetadataCrop,
                  performDestructiveCrop, h1, h2, h3, h4, h5, hres,
                  ite_self, if_neg, if_pos, ite_true, ite_false]
                split <;>
                  simp_all [cropProcess, performMetadataCrop,
                    performDestructiveCrop, hres]
          · cases res <;>
              · simp only [cropProcess, performMetadataCrop,
                  performDestructiveCrop, h1, h2, h3, h4, h5, hres,
                  ite_self]
                split <;> simp_all

/-- Every sanitize run's progress trace is one of a fixed set of prefixes
of `[5,10,20,30,40,50,60,70,80,90,100]`. -/
theorem sanitize_trace_mem (env : SanEnv) (fileCount : Nat)
    (fileName : String) (optsIn : SanitizeOptionsIn) :
    (sanitizeProcess env fileCount fileName optsIn).2 ∈
      [([] : List ℚ), [5], [5, 10], [5, 10, 20], [5, 10, 20, 30],
       [5, 10, 20, 30, 40, 50, 60, 70, 80],
       [5, 10, 20, 30, 40, 50, 60, 70, 80, 90],
       [5, 10, 20, 30, 40, 50, 60, 70, 80, 90, 100]] := by
  by_cases h1 : fileCount ≠ 1
  · simp [sanitizeProcess, h1]
  · by_cases h2 : env.libLoadFails
    · simp [sanitizeProcess, h1, h2]
    · by_cases h3 : checkCancelled env.cancelled 0
      · simp [sanitizeProcess, h1, h2, h3]
      · by_cases h4 : env.readFails
        · simp [sanitizeProcess, h1, h2, h3, h4]
        · cases hload : env.loadResult with
          | encrypted => simp [sanitizeProcess, h1, h2, h3, h4, hload]
          | failed msg => simp [sanitizeProcess, h1, h2, h3, h4, hload]
          | ok doc0 =>
            by_cases h5 : checkCancelled env.cancelled 1
            · simp [sanitizeProcess, h1, h2, h3, h4, hload, h5]
            · by_cases h6 : doc0.pages.length = 0
              · simp [sanitizeProcess, h1, h2, h3, h4, hload, h5, h6]
              · by_cases h7 : checkCancelled env.cancelled 2
                · simp [sanitizeProcess, h1, h2, h3, h4, hload, h5, h6, h7]
                · by_cases h8 : env.saveFails
                  · simp [sanitizeProcess, h1, h2, h3, h4, hload, h5, h6,
                      h7, h8]
                  · simp [sanitizeProcess, h1, h2, h3, h4, hload, h5, h6,
                      h7, h8]

/-- Every text-to-pdf run's progress trace is one of a fixed set of
prefixes of `[5,10,20,(30,40),50,90,100]`. -/
theorem text_trace_mem (env : TextEnv) (files : List TextFile)
    (optsIn : TextOptionsIn) :
    (textToPdfProcess env files optsIn).trace ∈
      [([] : List ℚ), [5], [5, 10], [5, 10, 20], [5, 10, 20, 30],
       [5, 10, 20, 30, 40], [5, 10, 20, 50, 90], [5, 10, 20, 50, 90, 100],
       [5, 10, 20, 30, 40, 50, 90], [5, 10, 20, 30, 40, 50, 90, 100]] := by
  simp only [textToPdfProcess]
  by_cases h1 : files.length < 1 ∧
      hasDirectText (mergeTextOptions optsIn) = false
  · rw [if_pos h1]; simp
  · rw [if_neg h1]
    by_cases h2 : env.libLoadFails = true
    · rw [if_pos h2]; simp
    · rw [if_neg h2]
      by_cases h3 : checkCancelled env.cancelled 0 = true
      · rw [if_pos h3]; simp
      · rw [if_neg h3]
        by_cases h4 : hasDirectText (mergeTextOptions optsIn) = false ∧
            env.readFails = true
        · rw [if_pos h4]; simp
        · rw [if_neg h4]
          cases hft : ((AVAILABLE_FONTS.find?
              (fun f => f.id = (mergeTextOptions optsIn).fontId)).getD
              { id := "helvetica", type := FontType.standard,
                url := none }).type with
          | standard =>
            by_cases h5 : env.embedFails = true
            · rw [if_pos h5]; simp
            · rw [if_neg h5]
              by_cases h6 : env.saveFails = true
              · rw [if_pos h6]; simp
              · rw [if_neg h6]; simp
          | noto =>
            rcases hlf : loadFont env.fontEnv env.fontState
              ((AVAILABLE_FONTS.find?
                (fun f => f.id = (mergeTextOptions optsIn).fontId)).getD
                { id := "helvetica", type := FontType.standard,
                  url := none }).id
              (((AVAILABLE_FONTS.find?
                (fun f => f.id = (mergeTextOptions optsIn).fontId)).getD
                { id := "helvetica", type := FontType.standard,
                  url := none }).url.getD "") with ⟨r, s1⟩
            rw [hlf]
            cases r with
            | error e => simp
            | ok b =>
              by_cases h5 : env.embedFails = true
              · simp [h5]
              · by_cases h6 : env.saveFails = true
                · simp [h5, h6]
                · simp [h5, h6]

/-- C7: for every invocation of the sanitize, crop and text-to-pdf
processors — under every host environment, input and option set — the
sequence of percentage values passed to the progress observer is
monotonically non-decreasing and every value lies within 0 to 100. -/
theorem c7_progress_monotone_bounded :
    (∀ (env : SanEnv) (fileCount : Nat) (fileName : String)
        (optsIn : SanitizeOptionsIn),
      ((sanitizeProcess env fileCount fileName optsIn).2).Pairwise (· ≤ ·) ∧
      ∀ v ∈ (sanitizeProcess env fileCount fileName optsIn).2,
        0 ≤ v ∧ v ≤ 100) ∧
    (∀ (env : CropEnv) (fileCount : Nat) (fileName : String)
        (pages : List CropPage) (opts : CropOptions),
      ((cropProcess env fileCount fileName pages opts).2).Pairwise
        (· ≤ ·) ∧
      ∀ v ∈ (cropProcess env fileCount fileName pages opts).2,
        0 ≤ v ∧ v ≤ 100) ∧
    (∀ (env : TextEnv) (files : List TextFile) (optsIn : TextOptionsIn),
      ((textToPdfProcess env files optsIn).trace).Pairwise (· ≤ ·) ∧
      ∀ v ∈ (textToPdfProcess env files optsIn).trace,
        0 ≤ v ∧ v ≤ 100) := by
  refine ⟨fun env fc fn o => ?_,
    fun env fc fn p o => crop_trace_sorted_bounded env fc fn p o,
    fun env fs o => ?_⟩
  · have h := sanitize_trace_mem env fc fn o
    simp only [List.mem_cons, List.not_mem_nil, or_false] at h
    rcases h with h | h | h | h | h | h | h | h <;> rw [h] <;>
      exact ⟨by decide, by decide⟩
  · have h := text_trace_mem env fs o
    simp only [List.mem_cons, List.not_mem_nil, or_false] at h
    rcases h with h | h | h | h | h | h | h | h | h | h <;> rw [h] <;>
      exact ⟨by decide, by decide⟩

/-- C7 witness: the three processors run on concrete failure-free
environments; the theorem instantiated there. -/
theorem c7_progress_monotone_bounded_witness :
    ((sanitizeProcess sampleSanEnv 1 "doc.pdf" {}).2).Pairwise (· ≤ ·) ∧
    ((cropProcess sampleCropEnvOk 1 "doc.pdf" [samplePage]
        { cropData := [((1 : Int), sampleCropData)],
          mode := none }).2).Pairwise (· ≤ ·) ∧
    ((textToPdfProcess sampleTextEnv [{ name := "a.txt", text := "hi" }]
        {}).trace).Pairwise (· ≤ ·) :=
  ⟨(c7_progress_monotone_bounded.1 sampleSanEnv 1 "doc.pdf" {}).1,
   (c7_progress_monotone_bounded.2.1 sampleCropEnvOk 1 "doc.pdf"
      [samplePage]
      { cropData := [((1 : Int), sampleCropData)], mode := none }).1,
   (c7_progress_monotone_bounded.2.2 sampleTextEnv
      [{ name := "a.txt", text := "hi" }] {}).1⟩
